import Mathlib

/-!
Verification of the pfr-guesser front-end ("Drake Maye-dle").

The repository holds three variants of the same React page component:
`src/frontend/pfr-guesser-frontend/app/page.tsx` (named below `PageTsx`),
`src/unnamed/part_000` (below `Part000`, the richest variant: positions,
give-up button, transparent session recreation on HTTP 404) and
`src/unnamed/part_001` (below `Part001` where it differs; its guess and
reveal handlers coincide with the `PageTsx` ones).

The component state (React useState hooks) is embedded as a record; each
async handler (loadGame, revealAnswer, submitGuess) becomes a pure function
from the state and the HTTP responses the environment may return to the new
state paired with the list of HTTP requests the handler issued.  The user
interface is embedded as a step function over events (button clicks,
keystrokes, responses arriving); a state is Reachable when a sequence of
events produces it from the initial hook values, with each handler applied
atomically.

The handlers of the source are not serialized: state reads before the
await use the values captured at invocation, and the writes after the
await land on whatever state is committed when the response arrives.  To
capture this, submitGuess and revealAnswer are also split at their await
into a pre-await half (guards, closure capture, request) and a post-await
half (the continuation on the committed state); decomposition lemmas show
an atomic run is the composition of the two halves, and an AsyncState
machine runs the halves interleaved, which exhibits the gameWon/gameLost
race.
-/

namespace PfrGuesser

/-- JS whitespace test used by String.prototype.trim (ASCII part). -/
def jsWhitespace (c : Char) : Bool :=
  c = ' ' || c = '\t' || c = '\n' || c = '\r' || c = '\x0b' || c = '\x0c'

/-- Embedding of the JS expression s.trim(): strip leading and trailing
whitespace. -/
def jsTrim (s : String) : String :=
  String.mk (((s.data.dropWhile jsWhitespace).reverse.dropWhile jsWhitespace).reverse)

/-- Embedding of the JS expression s.includes(pat): substring containment. -/
def jsIncludes (s pat : String) : Bool :=
  (List.range (s.data.length + 1)).any (fun i => pat.data.isPrefixOf (s.data.drop i))

/-- Embedding of the JS expression (s || dflt) on an optional string field:
undefined and the empty string are falsy. -/
def jsOrDefault (s : Option String) (dflt : String) : String :=
  match s with
  | some v => if v = "" then dflt else v
  | none => dflt

/-- Era feedback values of the wire contract: "same" | "far". -/
inductive Era
  | same
  | far
deriving DecidableEq

/-- Position values of the wire contract in part_000: "QB" | "WR" | "RB". -/
inductive Position
  | QB
  | WR
  | RB
deriving DecidableEq

/-- GameMode in page.tsx and part_000: "daily" | "unlimited". -/
inductive GameMode
  | daily
  | unlimited
deriving DecidableEq

/-- The GuessResult interface of page.tsx and part_000 (part_001 lacks
pfr_id; its color logic reads the same fields). Optional fields are
undefined-able in TS and become Option here. -/
structure GuessResult where
  name : String
  correct : Bool
  era : Option Era
  teams_overlap : Option Bool
  pfr_id : Option String
deriving DecidableEq

/-- The four feedback colors a recorded guess row can render with
(page.tsx lines 533-537, part_000 lines 729-742, part_001 lines 406-410):
green, orange, yellow, and the neutral no-match style. -/
inductive FeedbackColor
  | green
  | orange
  | yellow
  | neutral
deriving DecidableEq

/-- The color cascade of the guess list rows, identical in all three
variants: correct wins, then truthy teams_overlap, then era === "same",
else the neutral style. -/
def guessColor (g : GuessResult) : FeedbackColor :=
  if g.correct = true then FeedbackColor.green
  else if g.teams_overlap = some true then FeedbackColor.orange
  else if g.era = some Era.same then FeedbackColor.yellow
  else FeedbackColor.neutral

/-- The HTTP requests the client can issue. -/
inductive Request
  | loadReq (mode : GameMode)
  | guessReq (guess : String) (session_id : String)
  | revealReq (session_id : String)
  | autocompleteReq (q : String)
deriving DecidableEq

/-- MAX_GUESSES constant, identical in all three variants. -/
def MAX_GUESSES : Nat := 8

/-- A row of the seasons payload. part_000 declares the union of the
QB, WR and RB fields; page.tsx and part_001 declare the QB subset.
Numeric JSON values are embedded as integers, and as rationals for the
three decimal fields; none of them is ever computed with. -/
structure SeasonStats where
  season : Int
  team : Option String
  games : Option Int
  awards : Option String
  games_started : Option Int := none
  completions : Option Int := none
  attempts : Option Int := none
  yards : Option Int := none
  touchdowns : Option Int := none
  interceptions : Option Int := none
  passer_rating : Option Rat := none
  targets : Option Int := none
  receptions : Option Int := none
  yards_per_reception : Option Rat := none
  yards_per_attempt : Option Rat := none
  receiving_yards : Option Int := none
deriving DecidableEq

/-- Success payload of GET /daily_qb and /random_qb. -/
structure LoadData where
  session_id : String
  seasons : List SeasonStats
  position : Option Position
deriving DecidableEq

/-- Outcome of a load fetch as the client distinguishes it: res.ok with a
payload, or anything else (non-2xx, network failure, parse failure). -/
inductive LoadResp
  | ok (data : LoadData)
  | httpError
deriving DecidableEq

/-- The feedback object of a /guess response. -/
structure Feedback where
  era : Option Era
  teams_overlap : Option Bool
deriving DecidableEq

/-- Success payload of POST /guess. -/
structure GuessData where
  correct : Bool
  feedback : Option Feedback
  pfr_id : Option String
deriving DecidableEq

/-- Outcome of the /guess fetch: res.ok with a payload, or a non-2xx
response with a status and an optional detail field. -/
inductive GuessResp
  | ok (data : GuessData)
  | httpError (status : Nat) (detail : Option String)
deriving DecidableEq

/-- Success payload of POST /reveal. -/
structure RevealData where
  name : String
  pfr_id : Option String
  position : Option Position
deriving DecidableEq

/-- Outcome of the /reveal fetch. -/
inductive RevealResp
  | ok (data : RevealData)
  | httpError (status : Nat) (detail : Option String)
deriving DecidableEq

/-- The GuessResult object literal submitGuess builds from the typed guess
and the /guess payload (page.tsx lines 172-181, part_000 lines 207-216). -/
def recordedGuess (guessText : String) (data : GuessData) : GuessResult where
  name := guessText
  correct := data.correct
  era := data.feedback.bind Feedback.era
  teams_overlap := data.feedback.bind Feedback.teams_overlap
  pfr_id := data.pfr_id

namespace Part000

/-- The useState hooks of the part_000 component, lines 47-69. -/
structure ClientState where
  gameMode : GameMode
  sessionId : Option String
  position : Position
  seasons : List SeasonStats
  guess : String
  guesses : List GuessResult
  loading : Bool
  error : Option String
  gameWon : Bool
  gameLost : Bool
  answer : Option String
  answerPfrId : Option String
  answerPosition : Option Position
  copied : Bool
  showSeasons : Bool
  showTeams : Bool
  showAwards : Bool
  showHelp : Bool
  suggestions : List String
  showSuggestions : Bool
  selectedSuggestionIndex : Int
deriving DecidableEq

/-- The initial hook values (the useState arguments). -/
def initState : ClientState where
  gameMode := GameMode.daily
  sessionId := none
  position := Position.QB
  seasons := []
  guess := ""
  guesses := []
  loading := true
  error := none
  gameWon := false
  gameLost := false
  answer := none
  answerPfrId := none
  answerPosition := none
  copied := false
  showSeasons := false
  showTeams := false
  showAwards := false
  showHelp := false
  suggestions := []
  showSuggestions := false
  selectedSuggestionIndex := -1

/-- loadGame (part_000 lines 102-138): fetch /daily_qb or /random_qb; on
success store the session and reset the per-game state; on failure set the
error banner. -/
def loadGame (st : ClientState) (mode : GameMode) (resp : LoadResp) :
    ClientState × List Request :=
  let st := { st with loading := true, error := none }
  match resp with
  | LoadResp.ok data =>
      ({ st with
          sessionId := some data.session_id
          seasons := data.seasons
          position := data.position.getD Position.QB
          gameMode := mode
          guesses := []
          gameWon := false
          gameLost := false
          answer := none
          answerPfrId := none
          answerPosition := none
          guess := ""
          showSeasons := false
          showTeams := false
          showAwards := false
          loading := false },
        [Request.loadReq mode])
  | LoadResp.httpError =>
      ({ st with
          error := some "Failed to load game. Please refresh the page."
          loading := false },
        [Request.loadReq mode])

/-- revealAnswer (part_000 lines 140-174): POST /reveal; on success store
the answer and set gameLost; on a 404 whose detail mentions Session not
found, reload the game in the current mode and show the expiry notice; on
any other failure set the error banner. -/
def revealAnswer (st : ClientState) (resp : RevealResp) (lresp : LoadResp) :
    ClientState × List Request :=
  match st.sessionId with
  | none => (st, [])
  | some sid =>
    match resp with
    | RevealResp.ok data =>
        ({ st with
            answer := some data.name
            answerPfrId := data.pfr_id
            answerPosition := data.position
            gameLost := true },
          [Request.revealReq sid])
    | RevealResp.httpError status detail =>
        let errorMessage := jsOrDefault detail "Failed to reveal answer"
        if status = 404 ∧ jsIncludes errorMessage "Session not found" = true then
          let reloaded := loadGame st st.gameMode lresp
          ({ reloaded.1 with
              error := some "Your session expired. A new game has been loaded!" },
            Request.revealReq sid :: reloaded.2)
        else
          ({ st with error := some errorMessage }, [Request.revealReq sid])

/-- submitGuess (part_000 lines 176-233): reject blank input, terminal
games, missing sessions and full guess lists without a request; otherwise
POST /guess, record the outcome, and either win, reveal on the final
incorrect guess, or continue; a 404 mentioning Session not found reloads
the game in the current mode. -/
def submitGuess (st : ClientState) (gresp : GuessResp) (rresp : RevealResp)
    (lresp : LoadResp) : ClientState × List Request :=
  if jsTrim st.guess = "" ∨ st.gameWon = true ∨ st.gameLost = true ∨ st.sessionId = none then
    (st, [])
  else if MAX_GUESSES ≤ st.guesses.length then
    (st, [])
  else
    match st.sessionId with
    | none => (st, [])
    | some sid =>
      match gresp with
      | GuessResp.httpError status detail =>
          let errorMessage := jsOrDefault detail "Guess failed"
          if status = 404 ∧ jsIncludes errorMessage "Session not found" = true then
            let reloaded := loadGame st st.gameMode lresp
            ({ reloaded.1 with
                error := some "Your session expired. A new game has been loaded!" },
              Request.guessReq st.guess sid :: reloaded.2)
          else
            ({ st with error := some errorMessage }, [Request.guessReq st.guess sid])
      | GuessResp.ok data =>
          let newGuesses := st.guesses ++ [recordedGuess st.guess data]
          let afterRecord := { st with guesses := newGuesses }
          if data.correct = true then
            ({ afterRecord with
                gameWon := true
                guess := ""
                suggestions := []
                showSuggestions := false },
              [Request.guessReq st.guess sid])
          else if MAX_GUESSES ≤ newGuesses.length then
            let revealed := revealAnswer afterRecord rresp lresp
            ({ revealed.1 with
                guess := ""
                suggestions := []
                showSuggestions := false },
              Request.guessReq st.guess sid :: revealed.2)
          else
            ({ afterRecord with
                guess := ""
                suggestions := []
                showSuggestions := false },
              [Request.guessReq st.guess sid])

/-- The user and network events the part_000 view can deliver to the
handlers. Responses (the environment) are carried by the events. -/
inductive Event
  | submit (gresp : GuessResp) (rresp : RevealResp) (lresp : LoadResp)
  | giveUp (rresp : RevealResp) (lresp : LoadResp)
  | newGame (mode : GameMode) (lresp : LoadResp)
  | typeGuess (text : String)
  | suggestionsArrive (fetchOk : Bool) (players : List String)
  | pickSuggestion (name : String)
  | hintSeasons
  | hintTeams
  | hintAwards
  | openHelp
  | closeHelp
  | focusInput
  | blurInput
deriving DecidableEq

/-- One interaction step. Buttons and the input carry a
disabled={gameWon || gameLost} attribute, so those events only act on
non-terminal states; the give-up button fires revealAnswer, the mode
switch and the new-game buttons fire loadGame, the debounced autocomplete
effect fires suggestionsArrive. -/
def step (st : ClientState) (e : Event) : ClientState × List Request :=
  match e with
  | Event.submit gresp rresp lresp => submitGuess st gresp rresp lresp
  | Event.giveUp rresp lresp =>
      if st.gameWon = true ∨ st.gameLost = true then (st, [])
      else revealAnswer st rresp lresp
  | Event.newGame mode lresp => loadGame st mode lresp
  | Event.typeGuess text =>
      if st.gameWon = true ∨ st.gameLost = true then (st, [])
      else ({ st with guess := text }, [])
  | Event.suggestionsArrive fetchOk players =>
      if jsTrim st.guess = "" then
        ({ st with suggestions := [], selectedSuggestionIndex := -1 }, [])
      else if fetchOk then
        ({ st with
            suggestions := players
            showSuggestions := true
            selectedSuggestionIndex := -1 },
          [Request.autocompleteReq st.guess])
      else
        ({ st with suggestions := [] }, [Request.autocompleteReq st.guess])
  | Event.pickSuggestion name =>
      ({ st with guess := name, suggestions := [], showSuggestions := false }, [])
  | Event.hintSeasons => ({ st with showSeasons := true }, [])
  | Event.hintTeams => ({ st with showTeams := true }, [])
  | Event.hintAwards => ({ st with showAwards := true }, [])
  | Event.openHelp => ({ st with showHelp := true }, [])
  | Event.closeHelp => ({ st with showHelp := false }, [])
  | Event.focusInput =>
      if st.gameWon = true ∨ st.gameLost = true then (st, [])
      else ({ st with showSuggestions := true }, [])
  | Event.blurInput => ({ st with showSuggestions := false }, [])

/-- Client states reachable from the initial hook values by a sequence of
events. -/
inductive Reachable : ClientState → Prop
  | init : Reachable initState
  | next {st : ClientState} (e : Event) : Reachable st → Reachable (step st e).1

/-- Run a list of events from a state, keeping only the state. -/
def runEvents (st : ClientState) : List Event → ClientState
  | [] => st
  | e :: es => runEvents (step st e).1 es

end Part000

namespace PageTsx

/-- The useState hooks of page.tsx, lines 39-58. -/
structure ClientState where
  gameMode : GameMode
  sessionId : Option String
  seasons : List SeasonStats
  guess : String
  guesses : List GuessResult
  loading : Bool
  error : Option String
  gameWon : Bool
  gameLost : Bool
  answer : Option String
  answerPfrId : Option String
  copied : Bool
  showSeasons : Bool
  showTeams : Bool
  showAwards : Bool
  showHelp : Bool
  suggestions : List String
  showSuggestions : Bool
deriving DecidableEq

/-- revealAnswer (page.tsx lines 129-149): POST /reveal; on success store
the answer and set gameLost; any non-2xx response throws and the catch sets
a fixed error banner. There is no 404 special case in this variant. -/
def revealAnswer (st : ClientState) (resp : RevealResp) :
    ClientState × List Request :=
  match st.sessionId with
  | none => (st, [])
  | some sid =>
    match resp with
    | RevealResp.ok data =>
        ({ st with
            answer := some data.name
            answerPfrId := data.pfr_id
            gameLost := true },
          [Request.revealReq sid])
    | RevealResp.httpError _ _ =>
        ({ st with error := some "Failed to reveal answer" }, [Request.revealReq sid])

/-- submitGuess (page.tsx lines 151-198): same guards and recording as
part_000, but every non-2xx /guess response throws the detail and the
catch surfaces it as the error banner; no session recreation. -/
def submitGuess (st : ClientState) (gresp : GuessResp) (rresp : RevealResp) :
    ClientState × List Request :=
  if jsTrim st.guess = "" ∨ st.gameWon = true ∨ st.gameLost = true ∨ st.sessionId = none then
    (st, [])
  else if MAX_GUESSES ≤ st.guesses.length then
    (st, [])
  else
    match st.sessionId with
    | none => (st, [])
    | some sid =>
      match gresp with
      | GuessResp.httpError _ detail =>
          ({ st with error := some (jsOrDefault detail "Guess failed") },
            [Request.guessReq st.guess sid])
      | GuessResp.ok data =>
          let newGuesses := st.guesses ++ [recordedGuess st.guess data]
          let afterRecord := { st with guesses := newGuesses }
          if data.correct = true then
            ({ afterRecord with
                gameWon := true
                guess := ""
                suggestions := []
                showSuggestions := false },
              [Request.guessReq st.guess sid])
          else if MAX_GUESSES ≤ newGuesses.length then
            let revealed := revealAnswer afterRecord rresp
            ({ revealed.1 with
                guess := ""
                suggestions := []
                showSuggestions := false },
              Request.guessReq st.guess sid :: revealed.2)
          else
            ({ afterRecord with
                guess := ""
                suggestions := []
                showSuggestions := false },
              [Request.guessReq st.guess sid])

end PageTsx

/-- Autocomplete debounce delay of part_000 line 97: setTimeout(..., 200). -/
def part000AutocompleteDebounceMs : Nat := 200

/-- Autocomplete debounce delay of page.tsx line 87: setTimeout(..., 250). -/
def pageTsxAutocompleteDebounceMs : Nat := 250

/-- Autocomplete debounce delay of part_001 line 82: setTimeout(..., 250). -/
def part001AutocompleteDebounceMs : Nat := 250

/-- Discrete-time model of the debounce effect on the guess input: each
keystroke (given by its time, times listed in order) schedules the
/autocomplete fetch delay later through setTimeout, and the effect cleanup
clears the pending timer when the next keystroke lands before it fires.
Returns the times at which a fetch is issued. -/
def debounceFires (delay : Nat) : List Nat → List Nat
  | [] => []
  | [t] => [t + delay]
  | t1 :: t2 :: rest =>
      if t2 < t1 + delay then debounceFires delay (t2 :: rest)
      else (t1 + delay) :: debounceFires delay (t2 :: rest)

/-- An athlete of the selection pool, as the backend spec describes it. -/
structure Player where
  name : String
  pfr_id : String
deriving DecidableEq

/-- Modelled from the spec: the backend DailyPuzzleSelector is not part of
this source tree; the spec prescribes hashing the date string into an
index modulo the pool size. A plain polynomial string hash. -/
def hashDateString (date : String) : Nat :=
  date.data.foldl (fun h c => (h * 31 + c.toNat) % 1000000007) 7

/-- Modelled from the spec: DailyPuzzleSelector.pickForDate(date, pool), a
deterministic, pure function of the date and the pool composition; the
empty pool fails (EmptyPoolError, modelled as none). -/
def pickForDate (date : String) (pool : List Player) : Option Player :=
  if pool.length = 0 then none
  else pool.get? (hashDateString date % pool.length)

/-- Modelled from the spec: pickForDate must not depend on wall-clock call
time beyond the date argument, request ordering, or random seeds; those
call-context inputs are made explicit here and ignored. -/
def pickForDateAt (callTime : Nat) (randomSeed : Nat) (requestIndex : Nat)
    (date : String) (pool : List Player) : Option Player :=
  pickForDate date pool

/-- A pool member for concrete evaluations. -/
def samplePlayer : Player where
  name := "Drake Maye"
  pfr_id := "MayeDr00"

/-- A load payload used in concrete runs. -/
def demoLoadData : LoadData where
  session_id := "sess-1"
  seasons := []
  position := some Position.QB

/-- A successful load response used in concrete runs. -/
def demoLoad : LoadResp := LoadResp.ok demoLoadData

/-- An incorrect-guess response with full feedback. -/
def demoWrong : GuessResp :=
  GuessResp.ok
    { correct := false
      feedback := some { era := some Era.far, teams_overlap := some false }
      pfr_id := some "BradTo00" }

/-- A correct-guess response. -/
def demoRight : GuessResp :=
  GuessResp.ok { correct := true, feedback := none, pfr_id := some "MayeDr00" }

/-- A failing (non-404) reveal response. -/
def demoRevealFail : RevealResp := RevealResp.httpError 500 (some "boom")

/-- A successful reveal response. -/
def demoRevealOk : RevealResp :=
  RevealResp.ok { name := "Drake Maye", pfr_id := some "MayeDr00", position := some Position.QB }

/-- Eight wrong guesses typed and submitted after loading a game, then one
more keystroke; the eighth submit triggers the reveal, which fails with a
500, so the run ends with eight recorded guesses, a typed ninth guess and
no terminal flag. -/
def demoFullRun : List Part000.Event :=
  [Part000.Event.newGame GameMode.daily demoLoad] ++
    (List.replicate 8
      [Part000.Event.typeGuess "Tom Brady",
        Part000.Event.submit demoWrong demoRevealFail demoLoad]).flatten ++
    [Part000.Event.typeGuess "Josh Allen"]

/-- The state after demoFullRun: eight guesses recorded, not terminal. -/
def demoFullState : Part000.ClientState :=
  Part000.runEvents Part000.initState demoFullRun

/-- Loading a game, typing the answer and submitting it correctly. -/
def demoWinRun : List Part000.Event :=
  [Part000.Event.newGame GameMode.daily demoLoad,
    Part000.Event.typeGuess "Drake Maye",
    Part000.Event.submit demoRight demoRevealOk demoLoad]

/-- The state after demoWinRun: one correct guess, gameWon set. -/
def demoWinState : Part000.ClientState :=
  Part000.runEvents Part000.initState demoWinRun

/-- The state right after loading a game in the part_000 model. -/
def demoLoadedState : Part000.ClientState :=
  (Part000.loadGame Part000.initState GameMode.daily demoLoad).1

/-- The loaded state with a typed guess, seven wrong guesses already
recorded. -/
def demoSevenState : Part000.ClientState :=
  { demoLoadedState with
      guess := "Drake Maye"
      guesses := List.replicate 7
        { name := "Tom Brady"
          correct := false
          era := some Era.far
          teams_overlap := some false
          pfr_id := some "BradTo00" } }

/-- The loaded state with a typed guess and no guesses yet. -/
def demoReadyState : Part000.ClientState :=
  { demoLoadedState with guess := "Drake Maye" }

/-- A won state for concrete terminal-rejection checks. -/
def demoWonState : Part000.ClientState :=
  { demoLoadedState with guess := "Josh Allen", gameWon := true }

/-- A blank-input state: the typed guess is whitespace only. -/
def demoBlankState : Part000.ClientState :=
  { demoLoadedState with guess := " \t  " }

/-- A loaded page.tsx state with a typed guess, used to evaluate the
page.tsx error path on a 404 response. -/
def demoPageState : PageTsx.ClientState where
  gameMode := GameMode.daily
  sessionId := some "sess-1"
  seasons := []
  guess := "Tom Brady"
  guesses := []
  loading := false
  error := none
  gameWon := false
  gameLost := false
  answer := none
  answerPfrId := none
  copied := false
  showSeasons := false
  showTeams := false
  showAwards := false
  showHelp := false
  suggestions := []
  showSuggestions := false

/-- The page.tsx state with whitespace-only input for the blank-guess
check. -/
def demoPageBlankState : PageTsx.ClientState :=
  { demoPageState with guess := "   " }

/-- A recorded guess with era feedback but an absent teams_overlap field,
as a /guess response with a partial feedback object produces. -/
def demoMixedGuess : GuessResult where
  name := "Sam Example"
  correct := false
  era := some Era.same
  teams_overlap := none
  pfr_id := none

namespace Part000

/-- The closure a submitGuess invocation captures at part_000 line 176:
the typed guess, the guesses list, the session id and the game mode that
the code after the await reads. -/
structure PendingGuess where
  guess : String
  guesses : List GuessResult
  sessionId : String
  gameMode : GameMode
deriving DecidableEq

/-- The closure a revealAnswer invocation captures at part_000 line 140:
the session id and the game mode that the code after the await reads. -/
structure PendingReveal where
  sessionId : String
  gameMode : GameMode
deriving DecidableEq

/-- The closure values a submitGuess invocation on state st with session
sid captures. -/
def capturedGuess (st : ClientState) (sid : String) : PendingGuess where
  guess := st.guess
  guesses := st.guesses
  sessionId := sid
  gameMode := st.gameMode

/-- The closure values a revealAnswer invocation on state st with session
sid captures. -/
def capturedReveal (st : ClientState) (sid : String) : PendingReveal where
  sessionId := sid
  gameMode := st.gameMode

/-- The pre-await half of submitGuess (part_000 lines 177-188): the
guards run against the committed state at click time; passing them
captures the closure and issues the /guess request. No state is written
before the await, so the committed state is unchanged. -/
def submitGuessBegin (st : ClientState) : Option PendingGuess × List Request :=
  if jsTrim st.guess = "" ∨ st.gameWon = true ∨ st.gameLost = true ∨ st.sessionId = none then
    (none, [])
  else if MAX_GUESSES ≤ st.guesses.length then
    (none, [])
  else
    match st.sessionId with
    | none => (none, [])
    | some sid =>
        (some { guess := st.guess, guesses := st.guesses, sessionId := sid,
                gameMode := st.gameMode },
          [Request.guessReq st.guess sid])

/-- The pre-await half of revealAnswer (part_000 lines 141-148): the only
in-handler guard is a present session id; the /reveal request is issued.
The give-up button has the disabled={gameWon || gameLost} attribute,
which the machine below checks at click time; the handler itself never
re-checks the flags. -/
def revealAnswerBegin (st : ClientState) : Option PendingReveal × List Request :=
  match st.sessionId with
  | none => (none, [])
  | some sid =>
      (some { sessionId := sid, gameMode := st.gameMode }, [Request.revealReq sid])

/-- The post-await half of revealAnswer (part_000 lines 150-173), applied
to the committed state at response time with the captured closure: a
success stores the answer and sets gameLost with no re-check of gameWon;
the 404 session-expiry case reloads in the captured mode. -/
def revealAnswerEnd (p : PendingReveal) (st : ClientState) (resp : RevealResp)
    (lresp : LoadResp) : ClientState × List Request :=
  match resp with
  | RevealResp.ok data =>
      ({ st with
          answer := some data.name
          answerPfrId := data.pfr_id
          answerPosition := data.position
          gameLost := true }, [])
  | RevealResp.httpError status detail =>
      let errorMessage := jsOrDefault detail "Failed to reveal answer"
      if status = 404 ∧ jsIncludes errorMessage "Session not found" = true then
        let reloaded := loadGame st p.gameMode lresp
        ({ reloaded.1 with
            error := some "Your session expired. A new game has been loaded!" },
          reloaded.2)
      else
        ({ st with error := some errorMessage }, [])

/-- The post-await half of submitGuess (part_000 lines 190-232), applied
to the committed state at response time with the captured closure: the
recorded guess is built from the captured guess and guesses list, and
correct=true sets gameWon with no re-check of gameLost; the final-guess
path runs the nested revealAnswer with the captured session id and mode
(the nested fetch and its response taken together). -/
def submitGuessEnd (p : PendingGuess) (st : ClientState) (gresp : GuessResp)
    (rresp : RevealResp) (lresp : LoadResp) : ClientState × List Request :=
  match gresp with
  | GuessResp.httpError status detail =>
      let errorMessage := jsOrDefault detail "Guess failed"
      if status = 404 ∧ jsIncludes errorMessage "Session not found" = true then
        let reloaded := loadGame st p.gameMode lresp
        ({ reloaded.1 with
            error := some "Your session expired. A new game has been loaded!" },
          reloaded.2)
      else
        ({ st with error := some errorMessage }, [])
  | GuessResp.ok data =>
      let newGuesses := p.guesses ++ [recordedGuess p.guess data]
      let afterRecord := { st with guesses := newGuesses }
      if data.correct = true then
        ({ afterRecord with
            gameWon := true
            guess := ""
            suggestions := []
            showSuggestions := false }, [])
      else if MAX_GUESSES ≤ newGuesses.length then
        let revealed := revealAnswerEnd { sessionId := p.sessionId, gameMode := p.gameMode }
            afterRecord rresp lresp
        ({ revealed.1 with
            guess := ""
            suggestions := []
            showSuggestions := false },
          Request.revealReq p.sessionId :: revealed.2)
      else
        ({ afterRecord with
            guess := ""
            suggestions := []
            showSuggestions := false }, [])

/-- A configuration of the client with possibly in-flight handlers: the
committed state plus at most one pending guess and one pending reveal
closure (an under-approximation of the program, which can hold more). -/
structure AsyncState where
  committed : ClientState
  pendingGuess : Option PendingGuess
  pendingReveal : Option PendingReveal
deriving DecidableEq

/-- Events of the overlapped-handler semantics: clicks run the pre-await
halves against the committed state; response arrivals run the post-await
halves with the captured closures, in any order. -/
inductive AsyncEvent
  | clickGuess
  | clickGiveUp
  | guessResponse (gresp : GuessResp) (rresp : RevealResp) (lresp : LoadResp)
  | revealResponse (resp : RevealResp) (lresp : LoadResp)
deriving DecidableEq

/-- One step of the overlapped-handler semantics. clickGiveUp honors the
disabled={gameWon || gameLost} attribute of the give-up button (part_000
lines 714-722) against the committed state at click time. -/
def asyncStep (s : AsyncState) (e : AsyncEvent) : AsyncState × List Request :=
  match e with
  | AsyncEvent.clickGuess =>
      match s.pendingGuess with
      | some _ => (s, [])
      | none =>
          let begun := submitGuessBegin s.committed
          ({ s with pendingGuess := begun.1 }, begun.2)
  | AsyncEvent.clickGiveUp =>
      if s.committed.gameWon = true ∨ s.committed.gameLost = true then (s, [])
      else
        match s.pendingReveal with
        | some _ => (s, [])
        | none =>
            let begun := revealAnswerBegin s.committed
            ({ s with pendingReveal := begun.1 }, begun.2)
  | AsyncEvent.guessResponse gresp rresp lresp =>
      match s.pendingGuess with
      | none => (s, [])
      | some p =>
          let finished := submitGuessEnd p s.committed gresp rresp lresp
          ({ s with committed := finished.1, pendingGuess := none }, finished.2)
  | AsyncEvent.revealResponse resp lresp =>
      match s.pendingReveal with
      | none => (s, [])
      | some p =>
          let finished := revealAnswerEnd p s.committed resp lresp
          ({ s with committed := finished.1, pendingReveal := none }, finished.2)

/-- Configurations reachable in the overlapped-handler semantics: any
serialized-reachable committed state with no pending handler (a
serialized run is the schedule in which every response lands before the
next user action; the decomposition lemmas below show a serialized step
is the composition of the two halves), extended by async steps. -/
inductive AsyncReachable : AsyncState → Prop
  | quiescent (st : ClientState) : Reachable st →
      AsyncReachable { committed := st, pendingGuess := none, pendingReveal := none }
  | next {s : AsyncState} (e : AsyncEvent) :
      AsyncReachable s → AsyncReachable (asyncStep s e).1

/-- Run a list of async events, keeping only the configuration. -/
def runAsync (s : AsyncState) : List AsyncEvent → AsyncState
  | [] => s
  | e :: es => runAsync (asyncStep s e).1 es

end Part000

/-- Loading a game and typing the answer: the serialized prefix of the
race run, reaching demoReadyState. -/
def demoReadyRun : List Part000.Event :=
  [Part000.Event.newGame GameMode.daily demoLoad,
    Part000.Event.typeGuess "Drake Maye"]

/-- The quiescent configuration at demoReadyState. -/
def demoAsyncStart : Part000.AsyncState where
  committed := demoReadyState
  pendingGuess := none
  pendingReveal := none

/-- The race schedule: click Guess with the correct answer typed, click
Give Up while the /guess fetch is in flight (the button is still enabled:
both flags are false at click time), then the /reveal success lands, then
the /guess success lands. -/
def demoRaceEvents : List Part000.AsyncEvent :=
  [Part000.AsyncEvent.clickGuess,
    Part000.AsyncEvent.clickGiveUp,
    Part000.AsyncEvent.revealResponse demoRevealOk demoLoad,
    Part000.AsyncEvent.guessResponse demoRight demoRevealOk demoLoad]

/-- The configuration after the race. -/
def demoRaceFinal : Part000.AsyncState :=
  Part000.runAsync demoAsyncStart demoRaceEvents

/-! Helper lemmas. -/

/-- A string of whitespace characters trims to the empty string. -/
theorem jsTrim_of_all_whitespace (s : String) (h : s.data.all jsWhitespace = true) :
    jsTrim s = "" := by
  unfold jsTrim
  have h1 : s.data.dropWhile jsWhitespace = [] := by
    apply List.dropWhile_eq_nil_iff.mpr
    intro x hx
    exact List.all_eq_true.mp h x hx
  simp [h1]

/-- Part000.submitGuess on a terminal state is the identity with no
request. -/
theorem Part000.submitGuess_terminal (st : Part000.ClientState)
    (gresp : GuessResp) (rresp : RevealResp) (lresp : LoadResp)
    (h : st.gameWon = true ∨ st.gameLost = true) :
    Part000.submitGuess st gresp rresp lresp = (st, []) := by
  unfold Part000.submitGuess
  rcases h with h | h <;> simp [h]

/-- Part000.submitGuess with a full guess list is the identity with no
request. -/
theorem Part000.submitGuess_at_max (st : Part000.ClientState)
    (gresp : GuessResp) (rresp : RevealResp) (lresp : LoadResp)
    (h : MAX_GUESSES ≤ st.guesses.length) :
    Part000.submitGuess st gresp rresp lresp = (st, []) := by
  unfold Part000.submitGuess
  split
  · rfl
  · simp [h]

/-- Part000.submitGuess with blank (trimmed-empty) input is the identity
with no request. -/
theorem Part000.submitGuess_blank (st : Part000.ClientState)
    (gresp : GuessResp) (rresp : RevealResp) (lresp : LoadResp)
    (h : jsTrim st.guess = "") :
    Part000.submitGuess st gresp rresp lresp = (st, []) := by
  unfold Part000.submitGuess
  simp [h]

/-- PageTsx.submitGuess with blank (trimmed-empty) input is the identity
with no request. -/
theorem PageTsx.submitGuessBlankPage (st : PageTsx.ClientState)
    (gresp : GuessResp) (rresp : RevealResp)
    (h : jsTrim st.guess = "") :
    PageTsx.submitGuess st gresp rresp = (st, []) := by
  unfold PageTsx.submitGuess
  simp [h]

/-- Part000.loadGame either resets the guess list or leaves it unchanged. -/
theorem Part000.loadGame_guesses (st : Part000.ClientState) (mode : GameMode)
    (resp : LoadResp) :
    (Part000.loadGame st mode resp).1.guesses = [] ∨
      (Part000.loadGame st mode resp).1.guesses = st.guesses := by
  cases resp <;> simp [Part000.loadGame]

/-- Part000.loadGame never turns gameWon on. -/
theorem Part000.loadGame_gameWon (st : Part000.ClientState) (mode : GameMode)
    (resp : LoadResp) (h : st.gameWon = false) :
    (Part000.loadGame st mode resp).1.gameWon = false := by
  cases resp <;> simp [Part000.loadGame, h]

/-- Part000.loadGame never turns gameLost on. -/
theorem Part000.loadGame_gameLost (st : Part000.ClientState) (mode : GameMode)
    (resp : LoadResp) (h : st.gameLost = false) :
    (Part000.loadGame st mode resp).1.gameLost = false := by
  cases resp <;> simp [Part000.loadGame, h]

/-- Part000.revealAnswer either resets the guess list (through loadGame on
session expiry) or leaves it unchanged. -/
theorem Part000.revealAnswer_guesses (st : Part000.ClientState)
    (resp : RevealResp) (lresp : LoadResp) :
    (Part000.revealAnswer st resp lresp).1.guesses = [] ∨
      (Part000.revealAnswer st resp lresp).1.guesses = st.guesses := by
  unfold Part000.revealAnswer
  cases st.sessionId
  · simp
  · cases resp
    · simp
    · dsimp only
      split
      · exact Part000.loadGame_guesses st _ lresp
      · simp

/-- Part000.revealAnswer never turns gameWon on. -/
theorem Part000.revealAnswer_gameWon (st : Part000.ClientState)
    (resp : RevealResp) (lresp : LoadResp) (h : st.gameWon = false) :
    (Part000.revealAnswer st resp lresp).1.gameWon = false := by
  unfold Part000.revealAnswer
  cases st.sessionId
  · simpa using h
  · cases resp
    · simpa using h
    · dsimp only
      split
      · exact Part000.loadGame_gameWon st _ lresp h
      · simpa using h

/-- Part000.revealAnswer never lengthens the guess list. -/
theorem Part000.revealAnswer_guesses_len (st : Part000.ClientState)
    (resp : RevealResp) (lresp : LoadResp) :
    (Part000.revealAnswer st resp lresp).1.guesses.length ≤ st.guesses.length := by
  rcases Part000.revealAnswer_guesses st resp lresp with h | h <;> simp [h]

/-- A state revealAnswer starts from with gameWon off never ends with both
terminal flags on. -/
theorem Part000.revealAnswer_not_both (st : Part000.ClientState)
    (resp : RevealResp) (lresp : LoadResp) (hw : st.gameWon = false) :
    ¬((Part000.revealAnswer st resp lresp).1.gameWon = true ∧
      (Part000.revealAnswer st resp lresp).1.gameLost = true) := by
  have h1 := Part000.revealAnswer_gameWon st resp lresp hw
  simp [h1]

/-- Part000.submitGuess keeps the guess list within MAX_GUESSES. -/
theorem Part000.submitGuess_guesses_bound (st : Part000.ClientState)
    (gresp : GuessResp) (rresp : RevealResp) (lresp : LoadResp)
    (h : st.guesses.length ≤ MAX_GUESSES) :
    (Part000.submitGuess st gresp rresp lresp).1.guesses.length ≤ MAX_GUESSES := by
  unfold Part000.submitGuess
  split
  · exact h
  · split
    · exact h
    · rename_i hover
      have hlt : st.guesses.length < MAX_GUESSES := Nat.lt_of_not_le hover
      cases st.sessionId
      · exact h
      · cases gresp with
        | httpError status detail =>
            dsimp only
            split
            · rcases Part000.loadGame_guesses st st.gameMode lresp with h1 | h1 <;>
                simp [h1, h]
            · simpa using h
        | ok data =>
            dsimp only
            split
            · simpa using hlt
            · split
              · refine le_trans (Part000.revealAnswer_guesses_len _ rresp lresp) ?_
                show (st.guesses ++ [recordedGuess st.guess data]).length ≤ MAX_GUESSES
                simp only [List.length_append, List.length_cons, List.length_nil]
                omega
              · simpa using hlt

/-- Part000.submitGuess preserves the exclusion of the two terminal
flags. -/
theorem Part000.submitGuess_flags (st : Part000.ClientState)
    (gresp : GuessResp) (rresp : RevealResp) (lresp : LoadResp)
    (h : ¬(st.gameWon = true ∧ st.gameLost = true)) :
    ¬((Part000.submitGuess st gresp rresp lresp).1.gameWon = true ∧
      (Part000.submitGuess st gresp rresp lresp).1.gameLost = true) := by
  unfold Part000.submitGuess
  split
  · exact h
  · rename_i hguard
    push_neg at hguard
    obtain ⟨-, hwon, hlost, -⟩ := hguard
    have hw : st.gameWon = false := by
      cases hsw : st.gameWon
      · rfl
      · exact absurd hsw hwon
    have hl : st.gameLost = false := by
      cases hsl : st.gameLost
      · rfl
      · exact absurd hsl hlost
    split
    · exact h
    · cases st.sessionId
      · exact h
      · cases gresp with
        | httpError status detail =>
            dsimp only
            split
            · have h1 := Part000.loadGame_gameWon st st.gameMode lresp hw
              simp [h1]
            · simp [hw]
        | ok data =>
            dsimp only
            split
            · simp [hl]
            · split
              · exact Part000.revealAnswer_not_both _ rresp lresp (by exact hw)
              · simp [hw]

/-- Part000.step keeps the guess list within MAX_GUESSES. -/
theorem Part000.step_guesses_bound (st : Part000.ClientState) (e : Part000.Event)
    (h : st.guesses.length ≤ MAX_GUESSES) :
    (Part000.step st e).1.guesses.length ≤ MAX_GUESSES := by
  cases e with
  | submit gresp rresp lresp => exact Part000.submitGuess_guesses_bound st gresp rresp lresp h
  | giveUp rresp lresp =>
      dsimp only [Part000.step]
      split
      · exact h
      · rcases Part000.revealAnswer_guesses st rresp lresp with h1 | h1 <;> simp [h1, h]
  | newGame mode lresp =>
      rcases Part000.loadGame_guesses st mode lresp with h1 | h1 <;>
        simp [Part000.step, h1, h]
  | typeGuess text =>
      dsimp only [Part000.step]
      split <;> simpa using h
  | suggestionsArrive fetchOk players =>
      dsimp only [Part000.step]
      split
      · simpa using h
      · split <;> simpa using h
  | pickSuggestion name => simpa [Part000.step] using h
  | hintSeasons => simpa [Part000.step] using h
  | hintTeams => simpa [Part000.step] using h
  | hintAwards => simpa [Part000.step] using h
  | openHelp => simpa [Part000.step] using h
  | closeHelp => simpa [Part000.step] using h
  | focusInput =>
      dsimp only [Part000.step]
      split <;> simpa using h
  | blurInput => simpa [Part000.step] using h

/-- Part000.step preserves the exclusion of the two terminal flags. -/
theorem Part000.step_flags (st : Part000.ClientState) (e : Part000.Event)
    (h : ¬(st.gameWon = true ∧ st.gameLost = true)) :
    ¬((Part000.step st e).1.gameWon = true ∧ (Part000.step st e).1.gameLost = true) := by
  cases e with
  | submit gresp rresp lresp => exact Part000.submitGuess_flags st gresp rresp lresp h
  | giveUp rresp lresp =>
      dsimp only [Part000.step]
      split
      · exact h
      · rename_i hguard
        push_neg at hguard
        have hw : st.gameWon = false := by
          cases hsw : st.gameWon
          · rfl
          · exact absurd hsw hguard.1
        have h1 := Part000.revealAnswer_gameWon st rresp lresp hw
        simp [h1]
  | newGame mode lresp =>
      dsimp only [Part000.step]
      cases lresp
      · simp [Part000.loadGame]
      · simp only [Part000.loadGame]
        simpa using h
  | typeGuess text =>
      dsimp only [Part000.step]
      split <;> simpa using h
  | suggestionsArrive fetchOk players =>
      dsimp only [Part000.step]
      split
      · simpa using h
      · split <;> simpa using h
  | pickSuggestion name => simpa [Part000.step] using h
  | hintSeasons => simpa [Part000.step] using h
  | hintTeams => simpa [Part000.step] using h
  | hintAwards => simpa [Part000.step] using h
  | openHelp => simpa [Part000.step] using h
  | closeHelp => simpa [Part000.step] using h
  | focusInput =>
      dsimp only [Part000.step]
      split <;> simpa using h
  | blurInput => simpa [Part000.step] using h

/-- Reachable states keep the guess list within MAX_GUESSES. -/
theorem Part000.reachable_guesses_bound (st : Part000.ClientState)
    (h : Part000.Reachable st) : st.guesses.length ≤ MAX_GUESSES := by
  induction h with
  | init => simp [Part000.initState, MAX_GUESSES]
  | next e _ ih => exact Part000.step_guesses_bound _ e ih

/-- Reachable states never have both terminal flags set. -/
theorem Part000.reachable_flags (st : Part000.ClientState)
    (h : Part000.Reachable st) :
    ¬(st.gameWon = true ∧ st.gameLost = true) := by
  induction h with
  | init => simp [Part000.initState]
  | next e _ ih => exact Part000.step_flags _ e ih

/-- Running a list of events preserves reachability. -/
theorem Part000.reachable_runEvents (st : Part000.ClientState)
    (es : List Part000.Event) (h : Part000.Reachable st) :
    Part000.Reachable (Part000.runEvents st es) := by
  induction es generalizing st with
  | nil => exact h
  | cons e es ih => exact ih _ (Part000.Reachable.next e h)

/-- A serialized revealAnswer run is its pre-await half (the /reveal
request) followed by its post-await half applied to the unchanged
committed state. -/
theorem Part000.revealAnswer_decompose (st : Part000.ClientState) (sid : String)
    (resp : RevealResp) (lresp : LoadResp) (hsid : st.sessionId = some sid) :
    Part000.revealAnswer st resp lresp =
      ((Part000.revealAnswerEnd (Part000.capturedReveal st sid) st resp lresp).1,
        Request.revealReq sid ::
          (Part000.revealAnswerEnd (Part000.capturedReveal st sid) st resp lresp).2) := by
  unfold Part000.revealAnswer Part000.revealAnswerEnd Part000.capturedReveal
  rw [hsid]
  dsimp only
  cases resp
  · rfl
  · dsimp only
    split <;> rfl

/-- The pre-await half of revealAnswer on a state with a session captures
the session id and the current mode and issues the /reveal request. -/
theorem Part000.revealAnswerBegin_some (st : Part000.ClientState) (sid : String)
    (hsid : st.sessionId = some sid) :
    Part000.revealAnswerBegin st =
      (some (Part000.capturedReveal st sid), [Request.revealReq sid]) := by
  unfold Part000.revealAnswerBegin Part000.capturedReveal
  rw [hsid]

/-- A serialized submitGuess run on a live, non-full game is its
pre-await half (guards plus the /guess request) followed by its
post-await half applied to the unchanged committed state. -/
theorem Part000.submitGuess_decompose (st : Part000.ClientState) (sid : String)
    (gresp : GuessResp) (rresp : RevealResp) (lresp : LoadResp)
    (hsid : st.sessionId = some sid)
    (hguess : ¬ jsTrim st.guess = "")
    (hwon : st.gameWon = false) (hlost : st.gameLost = false)
    (hlen : st.guesses.length < MAX_GUESSES) :
    Part000.submitGuessBegin st =
      (some (Part000.capturedGuess st sid), [Request.guessReq st.guess sid]) ∧
    Part000.submitGuess st gresp rresp lresp =
      ((Part000.submitGuessEnd (Part000.capturedGuess st sid) st gresp rresp lresp).1,
        Request.guessReq st.guess sid ::
          (Part000.submitGuessEnd (Part000.capturedGuess st sid)
            st gresp rresp lresp).2) := by
  have hguard : ¬(jsTrim st.guess = "" ∨ st.gameWon = true ∨ st.gameLost = true ∨
      st.sessionId = none) := by
    simp [hguess, hwon, hlost, hsid]
  have hspace : ¬ MAX_GUESSES ≤ st.guesses.length := Nat.not_le.mpr hlen
  constructor
  · unfold Part000.submitGuessBegin Part000.capturedGuess
    rw [if_neg hguard, if_neg hspace, hsid]
  · unfold Part000.submitGuess Part000.submitGuessEnd Part000.capturedGuess
    rw [if_neg hguard, if_neg hspace, hsid]
    dsimp only
    cases gresp with
    | httpError status detail =>
        dsimp only
        split <;> rfl
    | ok data =>
        dsimp only
        split
        · rfl
        · split
          · rw [Part000.revealAnswer_decompose _ sid rresp lresp rfl]
            rfl
          · rfl

/-- A pre-await half that rejects (blank input, terminal game, missing
session or full guess list) coincides with the rejected serialized run:
no request, no state change. -/
theorem Part000.submitGuessBegin_none (st : Part000.ClientState)
    (gresp : GuessResp) (rresp : RevealResp) (lresp : LoadResp)
    (h : (Part000.submitGuessBegin st).1 = none) :
    Part000.submitGuess st gresp rresp lresp = (st, []) ∧
    (Part000.submitGuessBegin st).2 = [] := by
  by_cases hg1 : jsTrim st.guess = "" ∨ st.gameWon = true ∨ st.gameLost = true ∨
      st.sessionId = none
  · constructor
    · unfold Part000.submitGuess
      rw [if_pos hg1]
    · unfold Part000.submitGuessBegin
      rw [if_pos hg1]
  · by_cases hg2 : MAX_GUESSES ≤ st.guesses.length
    · constructor
      · unfold Part000.submitGuess
        rw [if_neg hg1, if_pos hg2]
      · unfold Part000.submitGuessBegin
        rw [if_neg hg1, if_pos hg2]
    · exfalso
      unfold Part000.submitGuessBegin at h
      rw [if_neg hg1, if_neg hg2] at h
      push_neg at hg1
      obtain ⟨-, -, -, hsidne⟩ := hg1
      cases hsid : st.sessionId with
      | none => exact hsidne hsid
      | some sid =>
          rw [hsid] at h
          simp at h

/-- Running a list of async events preserves async reachability. -/
theorem Part000.asyncReachable_runAsync (s : Part000.AsyncState)
    (es : List Part000.AsyncEvent) (h : Part000.AsyncReachable s) :
    Part000.AsyncReachable (Part000.runAsync s es) := by
  induction es generalizing s with
  | nil => exact h
  | cons e es ih => exact ih _ (Part000.AsyncReachable.next e h)

/-! Claim theorems. -/

/-- C1: across every event sequence the guesses list never holds more than
MAX_GUESSES = 8 entries, and a submitGuess call on a state whose guess
list is already full returns the state unchanged and issues no request. -/
theorem c1_guess_count_bounded (st : Part000.ClientState)
    (h : Part000.Reachable st) :
    st.guesses.length ≤ MAX_GUESSES ∧
    ∀ (gresp : GuessResp) (rresp : RevealResp) (lresp : LoadResp),
      MAX_GUESSES ≤ st.guesses.length →
        Part000.submitGuess st gresp rresp lresp = (st, []) := by
  refine ⟨Part000.reachable_guesses_bound st h, ?_⟩
  intro gresp rresp lresp hfull
  exact Part000.submitGuess_at_max st gresp rresp lresp hfull

/-- C1 witness: a concrete run reaching eight recorded guesses; the next
submit is rejected without a request or a state change. -/
theorem c1_guess_count_bounded_witness :
    demoFullState.guesses.length ≤ MAX_GUESSES ∧
    Part000.submitGuess demoFullState demoWrong demoRevealFail demoLoad =
      (demoFullState, []) := by
  have hr : Part000.Reachable demoFullState :=
    Part000.reachable_runEvents Part000.initState demoFullRun Part000.Reachable.init
  exact ⟨(c1_guess_count_bounded demoFullState hr).1,
    (c1_guess_count_bounded demoFullState hr).2 demoWrong demoRevealFail demoLoad
      (by decide)⟩

/-- C4: once gameWon or gameLost is set, submitGuess returns immediately:
no request is issued and the whole state is unchanged. -/
theorem c4_terminal_rejects_guesses (st : Part000.ClientState)
    (gresp : GuessResp) (rresp : RevealResp) (lresp : LoadResp)
    (h : st.gameWon = true ∨ st.gameLost = true) :
    Part000.submitGuess st gresp rresp lresp = (st, []) :=
  Part000.submitGuess_terminal st gresp rresp lresp h

/-- C4 witness: a concrete won state rejects a further submit. -/
theorem c4_terminal_rejects_guesses_witness :
    Part000.submitGuess demoWonState demoRight demoRevealOk demoLoad =
      (demoWonState, []) :=
  c4_terminal_rejects_guesses demoWonState demoRight demoRevealOk demoLoad
    (Or.inl (by decide))

/-- C10: whitespace-only input (the empty string included) makes
submitGuess a no-op in the part_000 and page.tsx variants alike: no /guess
request, no state change. -/
theorem c10_blank_guess_noop (st : Part000.ClientState)
    (st2 : PageTsx.ClientState)
    (gresp : GuessResp) (rresp : RevealResp) (lresp : LoadResp)
    (h1 : st.guess.data.all jsWhitespace = true)
    (h2 : st2.guess.data.all jsWhitespace = true) :
    Part000.submitGuess st gresp rresp lresp = (st, []) ∧
    PageTsx.submitGuess st2 gresp rresp = (st2, []) :=
  ⟨Part000.submitGuess_blank st gresp rresp lresp (jsTrim_of_all_whitespace _ h1),
    PageTsx.submitGuessBlankPage st2 gresp rresp (jsTrim_of_all_whitespace _ h2)⟩

/-- C10 witness: concrete whitespace-only inputs are rejected in both
variants. -/
theorem c10_blank_guess_noop_witness :
    Part000.submitGuess demoBlankState demoWrong demoRevealOk demoLoad =
      (demoBlankState, []) ∧
    PageTsx.submitGuess demoPageBlankState demoWrong demoRevealOk =
      (demoPageBlankState, []) :=
  c10_blank_guess_noop demoBlankState demoPageBlankState demoWrong demoRevealOk
    demoLoad (by decide) (by decide)

/-- C9 amended: in every state reachable by non-overlapping handler
executions (each handler's request and response applied atomically, the
schedule where every response lands before the next user action), gameWon
and gameLost are never both true, and a successful game load resets both
flags. The exclusion does not extend to overlapped in-flight handlers:
see the overlap counterexample. -/
theorem c9_flags_exclusive (st : Part000.ClientState)
    (h : Part000.Reachable st) :
    ¬(st.gameWon = true ∧ st.gameLost = true) ∧
    ∀ (mode : GameMode) (data : LoadData),
      (Part000.loadGame st mode (LoadResp.ok data)).1.gameWon = false ∧
      (Part000.loadGame st mode (LoadResp.ok data)).1.gameLost = false := by
  refine ⟨Part000.reachable_flags st h, ?_⟩
  intro mode data
  constructor <;> simp [Part000.loadGame]

/-- C9 witness: the concrete won run has the flags exclusive, and loading
a new game from it clears both. -/
theorem c9_flags_exclusive_witness :
    ¬(demoWinState.gameWon = true ∧ demoWinState.gameLost = true) ∧
    (Part000.loadGame demoWinState GameMode.unlimited (LoadResp.ok demoLoadData)).1.gameWon
        = false ∧
    (Part000.loadGame demoWinState GameMode.unlimited (LoadResp.ok demoLoadData)).1.gameLost
        = false := by
  have hr : Part000.Reachable demoWinState :=
    Part000.reachable_runEvents Part000.initState demoWinRun Part000.Reachable.init
  exact ⟨(c9_flags_exclusive demoWinState hr).1,
    (c9_flags_exclusive demoWinState hr).2 GameMode.unlimited demoLoadData⟩

/-- C9 counterexample: the program does not serialize its handlers, and
the original claim fails on a real reachable state. With the correct
answer typed, click Guess and then Give Up while the /guess fetch is in
flight (the give-up button is still enabled: both flags are false at
click time, part_000 lines 714-722). The /reveal success lands first and
sets gameLost (part_000 line 169); the pending /guess success then runs
with no re-check of the flags and sets gameWon (part_000 line 221). The
committed state reached by this schedule has gameWon and gameLost both
true. -/
theorem c9_overlap_counterexample :
    Part000.AsyncReachable demoRaceFinal ∧
    demoRaceFinal.committed.gameWon = true ∧
    demoRaceFinal.committed.gameLost = true := by
  refine ⟨?_, by decide, by decide⟩
  have h0 : Part000.Reachable (Part000.runEvents Part000.initState demoReadyRun) :=
    Part000.reachable_runEvents Part000.initState demoReadyRun Part000.Reachable.init
  have heq : Part000.runEvents Part000.initState demoReadyRun = demoReadyState := by
    decide
  rw [heq] at h0
  have h1 : Part000.AsyncReachable demoAsyncStart :=
    Part000.AsyncReachable.quiescent demoReadyState h0
  exact Part000.asyncReachable_runAsync demoAsyncStart demoRaceEvents h1

/-- C2: a successful /guess response with correct = true on a live,
non-full game appends the recorded guess, sets gameWon, issues exactly the
one /guess request, and every later submitGuess call is rejected by the
terminal guard with no request and no state change. -/
theorem c2_correct_guess_wins (st : Part000.ClientState) (sid : String)
    (data : GuessData) (rresp : RevealResp) (lresp : LoadResp)
    (hsid : st.sessionId = some sid)
    (hguess : ¬ jsTrim st.guess = "")
    (hwon : st.gameWon = false) (hlost : st.gameLost = false)
    (hlen : st.guesses.length < MAX_GUESSES)
    (hcorrect : data.correct = true) :
    (Part000.submitGuess st (GuessResp.ok data) rresp lresp).1.gameWon = true ∧
    (Part000.submitGuess st (GuessResp.ok data) rresp lresp).1.guesses =
      st.guesses ++ [recordedGuess st.guess data] ∧
    (Part000.submitGuess st (GuessResp.ok data) rresp lresp).2 =
      [Request.guessReq st.guess sid] ∧
    ∀ (gresp2 : GuessResp) (rresp2 : RevealResp) (lresp2 : LoadResp),
      Part000.submitGuess (Part000.submitGuess st (GuessResp.ok data) rresp lresp).1
          gresp2 rresp2 lresp2 =
        ((Part000.submitGuess st (GuessResp.ok data) rresp lresp).1, []) := by
  have hguard : ¬(jsTrim st.guess = "" ∨ st.gameWon = true ∨ st.gameLost = true ∨
      st.sessionId = none) := by
    simp [hguess, hwon, hlost, hsid]
  have hspace : ¬ MAX_GUESSES ≤ st.guesses.length := Nat.not_le.mpr hlen
  have hred : Part000.submitGuess st (GuessResp.ok data) rresp lresp =
      ({ st with
          guesses := st.guesses ++ [recordedGuess st.guess data]
          gameWon := true
          guess := ""
          suggestions := []
          showSuggestions := false },
        [Request.guessReq st.guess sid]) := by
    unfold Part000.submitGuess
    rw [if_neg hguard, if_neg hspace, hsid]
    dsimp only
    rw [if_pos hcorrect]
  rw [hred]
  refine ⟨rfl, rfl, rfl, ?_⟩
  intro gresp2 rresp2 lresp2
  exact Part000.submitGuess_terminal _ gresp2 rresp2 lresp2 (Or.inl rfl)

/-- C2 witness: submitting the correct answer on a concrete loaded state
wins and locks the game. -/
theorem c2_correct_guess_wins_witness :
    (Part000.submitGuess demoReadyState demoRight demoRevealOk demoLoad).1.gameWon
        = true ∧
    (Part000.submitGuess demoReadyState demoRight demoRevealOk demoLoad).1.guesses =
      demoReadyState.guesses ++ [recordedGuess demoReadyState.guess
        { correct := true, feedback := none, pfr_id := some "MayeDr00" }] ∧
    (Part000.submitGuess demoReadyState demoRight demoRevealOk demoLoad).2 =
      [Request.guessReq demoReadyState.guess "sess-1"] ∧
    Part000.submitGuess
        (Part000.submitGuess demoReadyState demoRight demoRevealOk demoLoad).1
        demoWrong demoRevealOk demoLoad =
      ((Part000.submitGuess demoReadyState demoRight demoRevealOk demoLoad).1, []) := by
  have h := c2_correct_guess_wins demoReadyState "sess-1"
    { correct := true, feedback := none, pfr_id := some "MayeDr00" }
    demoRevealOk demoLoad (by decide) (by decide) (by decide) (by decide)
    (by decide) (by decide)
  exact ⟨h.1, h.2.1, h.2.2.1, h.2.2.2 demoWrong demoRevealOk demoLoad⟩

/-- C3: an incorrect /guess response that fills the guess list makes
submitGuess call revealAnswer, and a successful /reveal response stores
the returned answer name and sets gameLost. -/
theorem c3_final_incorrect_reveals (st : Part000.ClientState) (sid : String)
    (data : GuessData) (rdata : RevealData) (lresp : LoadResp)
    (hsid : st.sessionId = some sid)
    (hguess : ¬ jsTrim st.guess = "")
    (hwon : st.gameWon = false) (hlost : st.gameLost = false)
    (hlen : st.guesses.length + 1 = MAX_GUESSES)
    (hcorrect : data.correct = false) :
    (Part000.submitGuess st (GuessResp.ok data) (RevealResp.ok rdata) lresp).1.gameLost
        = true ∧
    (Part000.submitGuess st (GuessResp.ok data) (RevealResp.ok rdata) lresp).1.answer =
      some rdata.name ∧
    (Part000.submitGuess st (GuessResp.ok data) (RevealResp.ok rdata) lresp).1.answerPfrId =
      rdata.pfr_id ∧
    (Part000.submitGuess st (GuessResp.ok data) (RevealResp.ok rdata) lresp).1.guesses =
      st.guesses ++ [recordedGuess st.guess data] ∧
    (Part000.submitGuess st (GuessResp.ok data) (RevealResp.ok rdata) lresp).2 =
      [Request.guessReq st.guess sid, Request.revealReq sid] := by
  have hguard : ¬(jsTrim st.guess = "" ∨ st.gameWon = true ∨ st.gameLost = true ∨
      st.sessionId = none) := by
    simp [hguess, hwon, hlost, hsid]
  have hspace : ¬ MAX_GUESSES ≤ st.guesses.length := by omega
  have hfull : MAX_GUESSES ≤ (st.guesses ++ [recordedGuess st.guess data]).length := by
    simp only [List.length_append, List.length_cons, List.length_nil]
    omega
  have hnc : ¬ data.correct = true := by simp [hcorrect]
  have hred : Part000.submitGuess st (GuessResp.ok data) (RevealResp.ok rdata) lresp =
      ({ st with
          guesses := st.guesses ++ [recordedGuess st.guess data]
          answer := some rdata.name
          answerPfrId := rdata.pfr_id
          answerPosition := rdata.position
          gameLost := true
          guess := ""
          suggestions := []
          showSuggestions := false },
        [Request.guessReq st.guess sid, Request.revealReq sid]) := by
    unfold Part000.submitGuess
    rw [if_neg hguard, if_neg hspace, hsid]
    dsimp only
    rw [if_neg hnc, if_pos hfull]
    unfold Part000.revealAnswer
    dsimp only
  rw [hred]
  exact ⟨rfl, rfl, rfl, rfl, rfl⟩

/-- C3 witness: the eighth incorrect guess on a concrete seven-guess state
triggers the reveal request and the successful reveal ends the game as
lost with the returned name stored. -/
theorem c3_final_incorrect_reveals_witness :
    (Part000.submitGuess demoSevenState demoWrong demoRevealOk demoLoad).1.gameLost
        = true ∧
    (Part000.submitGuess demoSevenState demoWrong demoRevealOk demoLoad).1.answer =
      some "Drake Maye" ∧
    (Part000.submitGuess demoSevenState demoWrong demoRevealOk demoLoad).2 =
      [Request.guessReq "Drake Maye" "sess-1", Request.revealReq "sess-1"] := by
  have h := c3_final_incorrect_reveals demoSevenState "sess-1"
    { correct := false
      feedback := some { era := some Era.far, teams_overlap := some false }
      pfr_id := some "BradTo00" }
    { name := "Drake Maye", pfr_id := some "MayeDr00", position := some Position.QB }
    demoLoad (by decide) (by decide) (by decide) (by decide) (by decide) (by decide)
  exact ⟨h.1, h.2.1, h.2.2.2.2⟩

/-- C5 counterexample: the claim reads the yellow row as requiring
teams_overlap = false; a recorded guess whose feedback object carries
era = "same" but no teams_overlap field renders yellow although its
teams_overlap is neither true nor false, so the stated iff fails. -/
theorem c5_color_counterexample :
    ¬(guessColor demoMixedGuess = FeedbackColor.yellow →
        demoMixedGuess.correct = false ∧
        demoMixedGuess.teams_overlap = some false ∧
        demoMixedGuess.era = some Era.same) := by
  decide

/-- C5 amended: one color per recorded guess by the priority cascade:
green iff correct; orange iff not correct and teams_overlap is true;
yellow iff not correct, teams_overlap is not true (false or absent) and
era is "same"; the neutral style otherwise. -/
theorem c5_color_priority (g : GuessResult) :
    (guessColor g = FeedbackColor.green ↔ g.correct = true) ∧
    (guessColor g = FeedbackColor.orange ↔
      g.correct = false ∧ g.teams_overlap = some true) ∧
    (guessColor g = FeedbackColor.yellow ↔
      g.correct = false ∧ ¬ g.teams_overlap = some true ∧ g.era = some Era.same) ∧
    (guessColor g = FeedbackColor.neutral ↔
      g.correct = false ∧ ¬ g.teams_overlap = some true ∧ ¬ g.era = some Era.same) := by
  obtain ⟨name, correct, era, overlap, pfr⟩ := g
  cases correct <;> rcases overlap with - | b <;> rcases era with - | e
  all_goals try cases b
  all_goals try cases e
  all_goals simp [guessColor]

/-- C6 counterexample: in page.tsx a /guess response of HTTP 404 with
detail "Session not found" is not special-cased: submitGuess surfaces the
detail as the error banner and issues no load request, so the session is
not recreated by this variant. -/
theorem c6_pageTsx_counterexample :
    (PageTsx.submitGuess demoPageState
        (GuessResp.httpError 404 (some "Session not found")) demoRevealOk).1 =
      { demoPageState with error := some "Session not found" } ∧
    (PageTsx.submitGuess demoPageState
        (GuessResp.httpError 404 (some "Session not found")) demoRevealOk).2 =
      [Request.guessReq "Tom Brady" "sess-1"] := by
  constructor <;> decide

/-- C6 amended: the transparent session recreation lives in the part_000
variant: there, a /guess or /reveal response of HTTP 404 whose detail
mentions "Session not found" makes the handler reload the game in the
current mode (issuing the load request) and replace the failure with the
session-expired notice. -/
theorem c6_part000_session_recreation (st : Part000.ClientState) (sid : String)
    (status : Nat) (detail : Option String)
    (rresp : RevealResp) (lresp : LoadResp)
    (hsid : st.sessionId = some sid)
    (hguess : ¬ jsTrim st.guess = "")
    (hwon : st.gameWon = false) (hlost : st.gameLost = false)
    (hlen : st.guesses.length < MAX_GUESSES)
    (hstatus : status = 404)
    (hdetail : jsIncludes (jsOrDefault detail "Guess failed") "Session not found" = true)
    (hdetail2 : jsIncludes (jsOrDefault detail "Failed to reveal answer")
      "Session not found" = true) :
    Part000.submitGuess st (GuessResp.httpError status detail) rresp lresp =
      ({ (Part000.loadGame st st.gameMode lresp).1 with
          error := some "Your session expired. A new game has been loaded!" },
        [Request.guessReq st.guess sid, Request.loadReq st.gameMode]) ∧
    Part000.revealAnswer st (RevealResp.httpError status detail) lresp =
      ({ (Part000.loadGame st st.gameMode lresp).1 with
          error := some "Your session expired. A new game has been loaded!" },
        [Request.revealReq sid, Request.loadReq st.gameMode]) := by
  have hguard : ¬(jsTrim st.guess = "" ∨ st.gameWon = true ∨ st.gameLost = true ∨
      st.sessionId = none) := by
    simp [hguess, hwon, hlost, hsid]
  have hspace : ¬ MAX_GUESSES ≤ st.guesses.length := Nat.not_le.mpr hlen
  constructor
  · unfold Part000.submitGuess
    rw [if_neg hguard, if_neg hspace, hsid]
    dsimp only
    rw [if_pos ⟨hstatus, hdetail⟩]
    cases lresp <;> rfl
  · unfold Part000.revealAnswer
    rw [hsid]
    dsimp only
    rw [if_pos ⟨hstatus, hdetail2⟩]
    cases lresp <;> rfl

/-- C6 amended witness: a concrete 404 with detail "Session not found"
recreates the session in part_000 through both handlers. -/
theorem c6_part000_session_recreation_witness :
    Part000.submitGuess demoReadyState
        (GuessResp.httpError 404 (some "Session not found")) demoRevealOk demoLoad =
      ({ (Part000.loadGame demoReadyState demoReadyState.gameMode demoLoad).1 with
          error := some "Your session expired. A new game has been loaded!" },
        [Request.guessReq demoReadyState.guess "sess-1",
          Request.loadReq demoReadyState.gameMode]) ∧
    Part000.revealAnswer demoReadyState
        (RevealResp.httpError 404 (some "Session not found")) demoLoad =
      ({ (Part000.loadGame demoReadyState demoReadyState.gameMode demoLoad).1 with
          error := some "Your session expired. A new game has been loaded!" },
        [Request.revealReq "sess-1", Request.loadReq demoReadyState.gameMode]) :=
  c6_part000_session_recreation demoReadyState "sess-1" 404
    (some "Session not found") demoRevealOk demoLoad (by decide) (by decide)
    (by decide) (by decide) (by decide) (by decide) (by decide) (by decide)

/-- C7 counterexample: the debounce delay is 250 ms in page.tsx and
part_001, not 200 ms: a second keystroke 220 ms after the first, outside
the claimed 200 ms window, still cancels the pending request under the
coded 250 ms delay, while a 200 ms debounce would already have fired. -/
theorem c7_debounce_counterexample :
    ¬ pageTsxAutocompleteDebounceMs = 200 ∧
    ¬ part001AutocompleteDebounceMs = 200 ∧
    debounceFires pageTsxAutocompleteDebounceMs [0, 220] = [470] ∧
    debounceFires 200 [0, 220] = [200, 420] := by
  refine ⟨by decide, by decide, ?_, ?_⟩ <;> decide

/-- C7 amended: the autocomplete request is debounced at 200 ms in the
part_000 variant and at 250 ms in page.tsx and part_001; after a lone
keystroke the request fires one delay later, and a further keystroke
inside the delay window cancels the pending request. -/
theorem c7_debounce_amended :
    part000AutocompleteDebounceMs = 200 ∧
    pageTsxAutocompleteDebounceMs = 250 ∧
    part001AutocompleteDebounceMs = 250 ∧
    (∀ (delay t : Nat), debounceFires delay [t] = [t + delay]) ∧
    (∀ (delay t1 t2 : Nat) (rest : List Nat), t2 < t1 + delay →
        debounceFires delay (t1 :: t2 :: rest) = debounceFires delay (t2 :: rest)) := by
  refine ⟨rfl, rfl, rfl, fun delay t => rfl, ?_⟩
  intro delay t1 t2 rest hlt
  simp only [debounceFires]
  rw [if_pos hlt]

/-- C7 amended witness: with the coded part_000 delay, a keystroke 100 ms
after the first cancels the pending request, and the surviving request
fires one delay after the last keystroke. -/
theorem c7_debounce_amended_witness :
    debounceFires part000AutocompleteDebounceMs [0, 100] =
      debounceFires part000AutocompleteDebounceMs [100] ∧
    debounceFires part000AutocompleteDebounceMs [100] = [300] :=
  ⟨c7_debounce_amended.2.2.2.2 part000AutocompleteDebounceMs 0 100 [] (by decide),
    c7_debounce_amended.2.2.2.1 part000AutocompleteDebounceMs 100⟩

/-- C8 (spec-modelled): pickForDate is a pure function of the date and the
pool: it ignores wall-clock call time, random seeds and request ordering,
and on a nonempty pool it returns a member of the pool, so repeated calls
and process restarts with the same pool agree. -/
theorem c8_pickForDate_deterministic :
    (∀ (t1 s1 i1 t2 s2 i2 : Nat) (date : String) (pool : List Player),
        pickForDateAt t1 s1 i1 date pool = pickForDateAt t2 s2 i2 date pool) ∧
    (∀ (date : String) (pool : List Player), pool ≠ [] →
        ∃ p, pickForDate date pool = some p ∧ p ∈ pool) := by
  constructor
  · intro t1 s1 i1 t2 s2 i2 date pool
    rfl
  · intro date pool hne
    have hlen : 0 < pool.length := List.length_pos.mpr hne
    have hidx : hashDateString date % pool.length < pool.length :=
      Nat.mod_lt _ hlen
    unfold pickForDate
    rw [if_neg (Nat.pos_iff_ne_zero.mp hlen)]
    refine ⟨pool.get ⟨hashDateString date % pool.length, hidx⟩, ?_, List.get_mem _ _ hidx⟩
    exact List.get?_eq_get hidx

/-- C8 witness: two differing call contexts agree on a concrete date and
pool, and the pick on the singleton pool is its member. -/
theorem c8_pickForDate_deterministic_witness :
    pickForDateAt 11 22 33 "2025-10-12" [samplePlayer] =
      pickForDateAt 44 55 66 "2025-10-12" [samplePlayer] ∧
    pickForDate "2025-10-12" [samplePlayer] = some samplePlayer := by
  refine ⟨c8_pickForDate_deterministic.1 11 22 33 44 55 66 "2025-10-12" [samplePlayer], ?_⟩
  obtain ⟨p, hp, hmem⟩ :=
    c8_pickForDate_deterministic.2 "2025-10-12" [samplePlayer] (by decide)
  rw [List.mem_singleton.mp hmem] at hp
  exact hp

end PfrGuesser
